import Mathlib

set_option maxRecDepth 40000

/-!
Verification of the job-script generation engine of the `begin` repository.

The repository contains four Go variants of the same generator:
* `src/begin.go` — PBS-only generator (`Config.PBS`), unconditional mpirun line;
* `src/unnamed/part_000` — the richest variant: `ExtendedConfig`, `JobData`
  dispatching on pbs/slurm/bare, mpirun gated on `NumberOfMPIRanksPerNode > 0`,
  `BatchUnsupported` constant;
* `src/unnamed/part_001` — two older variants; its third program
  (lines 491-598) emits the *total* rank count in the `mpiprocs=` sub-clause and
  never emits a `cd` line;
* `src/unnamed/part_002` — PBS-only variant with unconditional mpirun line.

Machine integers: Go `int`/`int64`/`time.Duration` are modelled as `Int`;
where overflow matters it is made explicit: `time.Duration.Round`'s
documented int64 overflow clamp is modelled in `goRoundSecond`, and the one
multiplication of user-controlled integers — the total rank count
`NumberOfNodes * NumberOfMPIRanksPerNode` — wraps to two's-complement int64
via `wrapI64` exactly as Go `*` does (the other arithmetic in the sources
cannot leave int64 when its inputs are int64).  Go `/` and `%` on integers
truncate toward zero, so they are modelled with `Int.tdiv`/`Int.tmod`.
-/

/-- Two's-complement wrap-around of a value to int64, the behavior of Go's
64-bit integer multiplication on overflow. -/
def wrapI64 (n : Int) : Int :=
  (n + 9223372036854775808) % 18446744073709551616 - 9223372036854775808

/-! ## Batch-system identifiers (src/unnamed/part_000 lines 16-22) -/

def BatchPBS : String := "pbs"

def BatchSlurm : String := "slurm"

def BatchBare : String := "bare"

def BatchAutodetect : String := "autodetect"

def BatchUnsupported : String := "unsupported"

/-! ## Duration formatting (formatDuration, identical in all four variants) -/

/-- Model of Go `fmt.Sprintf("%02d", n)` for an `int64` value: decimal digits
left-padded with `0` to a minimum total width of 2; for negative values the
sign counts toward the width, so `-5` prints as `-5`. -/
def pad2 (n : Int) : String :=
  if n < 0 then "-" ++ toString n.natAbs
  else if n < 10 then "0" ++ toString n.natAbs
  else toString n.natAbs

/-- Model of Go `d.Round(time.Second)` for `d : time.Duration` (int64
nanoseconds): round to the nearest multiple of 10^9, ties away from zero.
Go's documented overflow behavior is kept: if the rounded value would not fit
in int64 the result clamps to the maximum (minimum) duration.  Go `%` on
int64 is truncated remainder, hence `Int.tmod`. -/
def goRoundSecond (d : Int) : Int :=
  let m : Int := 1000000000
  let r := Int.tmod d m
  if d < 0 then
    if -r + -r < m then d + -r
    else if -9223372036854775808 ≤ d - m + -r then d - m + -r
    else -9223372036854775808
  else
    if r + r < m then d - r
    else if d + m - r ≤ 9223372036854775807 then d + m - r
    else 9223372036854775807

/-- The hour/minute/second decomposition and formatting part of
`formatDuration`: `h := d / time.Hour; d -= h * time.Hour; m := d / time.Minute;
d -= m * time.Minute; s := d / time.Second` with Go's truncating division. -/
def formatCore (d : Int) : String :=
  let h := Int.tdiv d 3600000000000
  let d1 := d - h * 3600000000000
  let m := Int.tdiv d1 60000000000
  let d2 := d1 - m * 60000000000
  let s := Int.tdiv d2 1000000000
  pad2 h ++ ":" ++ pad2 m ++ ":" ++ pad2 s

/-- `formatDuration` (src/begin.go lines 32-40 and the identical copies in the
other variants): round to the nearest second, then decompose and format. -/
def formatDuration (d : Int) : String :=
  formatCore (goRoundSecond d)

/-! ## Path joining (Go `path.Join` / `path.Clean`, used for log file paths) -/

/-- One step of Go `path.Clean`'s element processing, in segment-stack form:
`..` pops a non-`..` entry, is ignored at the root, and is kept when there is
nothing left to pop in a relative path.  `acc` is the reversed stack. -/
def cleanSegStep (rooted : Bool) (acc : List String) (seg : String) : List String :=
  if seg = ".." then
    match acc with
    | [] => if rooted then [] else [".."]
    | t :: rest => if t = ".." then seg :: acc else rest
  else seg :: acc

/-- Split a character list at every occurrence of `sep` (the pieces do not
contain `sep`; n separators yield n+1 pieces). -/
def splitOnChar (sep : Char) : List Char → List (List Char)
  | [] => [[]]
  | c :: rest =>
    if c = sep then [] :: splitOnChar sep rest
    else
      match splitOnChar sep rest with
      | [] => [[c]]
      | g :: gs => (c :: g) :: gs

/-! ## Go `strings.Join` -/

/-- Model of Go `strings.Join(l, sep)`. -/
def strJoin (sep : String) : List String → String
  | [] => ""
  | [x] => x
  | x :: xs => x ++ sep ++ strJoin sep xs

/-- Model of Go `path.Clean`: drop empty and `.` segments, resolve `..`
segments against the stack, keep a leading `/`, and return `.` for an empty
result. -/
def pathClean (p : String) : String :=
  if p = "" then "."
  else
    let rooted := match p.data with
      | '/' :: _ => true
      | _ => false
    let segs := ((splitOnChar '/' p.data).map String.mk).filter
      (fun s => !(s == "") && !(s == "."))
    let stack := (segs.foldl (cleanSegStep rooted) []).reverse
    let out := (if rooted then "/" else "") ++ strJoin "/" stack
    if out = "" then "." else out

/-- Model of Go `path.Join`: join the non-empty elements with `/` and `Clean`
the result; all-empty input gives the empty string. -/
def pathJoin (elems : List String) : String :=
  let joined := strJoin "/" (elems.filter (fun s => !(s == "")))
  if joined = "" then "" else pathClean joined

/-! ## The job configuration (src/unnamed/part_000 lines 47-94) -/

/-- `Config` of src/unnamed/part_000 (lines 47-70).  `Walltime` is a Go
`time.Duration`, i.e. int64 nanoseconds. -/
structure Config where
  Name : String
  NumberOfNodes : Int
  NodeType : String
  NumberOfMPIRanksPerNode : Int
  NumberOfOMPThreadsPerProcess : Int
  Walltime : Int
  Email : String
  LogDirectory : String
  PrintOMPEnvironment : Bool
  ModulesPreScript : List String
  LoadModules : List String
  WorkingDirectory : String
  PreScript : List String
  RunTime : List String
  Executable : String
  Arguments : List String
  PostScript : List String

/-- `ExtendedConfig` of src/unnamed/part_000 (lines 72-79): the raw config
plus the derived fields. -/
structure ExtendedConfig extends Config where
  NumberOfMPIRanks : Int
  NumberOfTasksPerNode : Int
  WalltimeString : String
  OutputFile : String
  ErrorFile : String

/-- `NewExtendedConfig` (src/unnamed/part_000 lines 81-94), including the
redundant re-assignment of `NumberOfTasksPerNode` when
`NumberOfMPIRanksPerNode == 0`.  The total rank count is Go's int64 product,
which wraps on overflow (`wrapI64`). -/
def NewExtendedConfig (c : Config) : ExtendedConfig :=
  let cc : ExtendedConfig :=
    { toConfig := c
      NumberOfTasksPerNode := 1
      NumberOfMPIRanks := wrapI64 (c.NumberOfNodes * c.NumberOfMPIRanksPerNode)
      WalltimeString := formatDuration c.Walltime
      OutputFile := pathJoin [c.LogDirectory, c.Name ++ ".out"]
      ErrorFile := pathJoin [c.LogDirectory, c.Name ++ ".err"] }
  if c.NumberOfMPIRanksPerNode = 0 then
    { cc with NumberOfTasksPerNode := 1 }
  else cc

/-! ## Header rendering (src/unnamed/part_000 lines 111-172)

The three header writers apply a constant `text/template` string to
`NewExtendedConfig config`; a constant template over fields that all exist
never fails, so each writer is modelled as the substituted string. -/

/-- Output of `writePBSHeader`'s template (src/unnamed/part_000 lines 111-134),
without the extra blank line that `writePBSHeader` appends afterwards. -/
def pbsHeaderString (c : Config) : String :=
  let e := NewExtendedConfig c
  "#!/bin/bash -l\n" ++
  "#PBS -N " ++ e.Name ++ "\n" ++
  "#PBS -e " ++ e.ErrorFile ++ "\n" ++
  "#PBS -o " ++ e.OutputFile ++ "\n" ++
  "#PBS -m abe\n" ++
  "#PBS -M " ++ e.Email ++ "\n" ++
  "#PBS -l select=" ++ toString e.NumberOfNodes ++
    ":node_type=" ++ e.NodeType ++
    ":mpiprocs=" ++ toString e.NumberOfMPIRanksPerNode ++
    ":ompthreads=" ++ toString e.NumberOfOMPThreadsPerProcess ++ "\n" ++
  "#PBS -l walltime=" ++ e.WalltimeString ++ "\n"

/-- Output of `writeSlurmHeader`'s template (src/unnamed/part_000
lines 136-157), without the extra blank line appended afterwards. -/
def slurmHeaderString (c : Config) : String :=
  let e := NewExtendedConfig c
  "#!/bin/bash -l\n" ++
  "#SBATCH -J " ++ e.Name ++ "\n" ++
  "#SBATCH -o " ++ e.OutputFile ++ "\n" ++
  "#SBATCH -e " ++ e.ErrorFile ++ "\n" ++
  "#SBATCH --mail-type=ALL\n" ++
  "#SBATCH --mail-user=" ++ e.Email ++ "\n" ++
  "#SBATCH --nodes " ++ toString e.NumberOfNodes ++ "\n" ++
  "#SBATCH --ntasks-per-node " ++ toString e.NumberOfTasksPerNode ++ "\n" ++
  "#SBATCH --time=" ++ e.WalltimeString ++ "\n"

/-- Output of `writeBareHeader`'s template (src/unnamed/part_000
lines 159-172). -/
def bareHeaderString : String := "#!/bin/bash -l\n"

/-! ## JobData (src/unnamed/part_000 lines 174-251) -/

/-- The header part of `JobData`'s builder: the Go `switch` has cases for
pbs/slurm/bare and *no default*, so an unknown batch system contributes
nothing.  Each header writer appends one extra blank line. -/
def headerBlock (c : Config) (batchSystem : String) : String :=
  if batchSystem = BatchPBS then pbsHeaderString c ++ "\n"
  else if batchSystem = BatchSlurm then slurmHeaderString c ++ "\n"
  else if batchSystem = BatchBare then bareHeaderString ++ "\n"
  else ""

/-- `JobData` lines 192-205: modules pre-script lines, `module load` lines and
pre-script lines, each group followed by a blank line. -/
def preBlock (c : Config) : String :=
  String.join (c.ModulesPreScript.map (fun cmd => cmd ++ "\n")) ++ "\n" ++
  String.join (c.LoadModules.map (fun m => "module load " ++ m ++ "\n")) ++ "\n" ++
  String.join (c.PreScript.map (fun cmd => cmd ++ "\n")) ++ "\n"

/-- `JobData` lines 207-210: the conditional `cd` line followed by the
unconditional blank line. -/
def cdBlock (c : Config) : String :=
  (if c.WorkingDirectory = "" then "" else "cd " ++ c.WorkingDirectory ++ "\n") ++ "\n"

/-- `JobData` lines 246-248: post-script lines. -/
def postBlock (c : Config) : String :=
  String.join (c.PostScript.map (fun cmd => cmd ++ "\n"))

/-- The mpirun segment of the task line (src/unnamed/part_000 lines 214-224):
the constant template `time mpirun -n ...NumberOfMPIRanks...` applied to
`NewExtendedConfig config`; being constant and non-empty it always renders,
so the `mpirunString != ""` guard of the source is always taken. -/
def mpirunTaskSeg (c : Config) : String :=
  "time mpirun -n " ++ toString (NewExtendedConfig c).NumberOfMPIRanks

/-- The run-time-prefix / executable / arguments tail of the task list
(src/unnamed/part_000 lines 226-234). -/
def restPieces (c : Config) : List String :=
  (if 0 < c.RunTime.length then [strJoin " " c.RunTime] else []) ++
  [c.Executable] ++
  (if 0 < c.Arguments.length then [strJoin " " c.Arguments] else [])

/-- The full `task` slice of `JobData` (src/unnamed/part_000 lines 212-234):
the mpirun segment is appended only when `NumberOfMPIRanksPerNode > 0`. -/
def taskPieces (c : Config) : List String :=
  (if 0 < c.NumberOfMPIRanksPerNode then [mpirunTaskSeg c] else []) ++ restPieces c

/-- `rawTaskString := strings.Join(task, " ")` (src/unnamed/part_000
line 236). -/
def taskString (c : Config) : String :=
  strJoin " " (taskPieces c)

/-- Does the character list contain the `text/template` action delimiter
(two consecutive left-brace characters, code 123)? -/
def hasDelim : List Char → Bool
  | c1 :: c2 :: rest => (c1.toNat == 123 && c2.toNat == 123) || hasDelim (c2 :: rest)
  | _ => false

/-- Model of `ExecTemplate` (src/unnamed/part_000 lines 96-109) applied to the
user-assembled task string: a string without the template action delimiter is
returned verbatim by `text/template`; a string containing the delimiter would
be parsed as a template action, which this model conservatively treats as the
failure case (every theorem below restricts to delimiter-free inputs, where
the model is exact). -/
def execTemplateUser (s : String) : Except String String :=
  if hasDelim s.data then Except.error "execute template" else Except.ok s

/-- `Config.JobData` (src/unnamed/part_000 lines 174-251).  The Go code writes
header, pre-script blocks and the `cd` line into the builder before rendering
the task template, but returns `("", err)` on template failure, so the net
result is either an error or the full concatenation. -/
def jobData (c : Config) (batchSystem : String) : Except String String :=
  match execTemplateUser (taskString c) with
  | Except.error e => Except.error ("exec task string template: " ++ e)
  | Except.ok t =>
      Except.ok (headerBlock c batchSystem ++ preBlock c ++ cdBlock c ++
        t ++ "\n" ++ postBlock c)

/-- The generation core of `run` (src/unnamed/part_000 lines 269-281), after
the batch-system flag has been resolved (autodetection replaces
`autodetect` by one of pbs/slurm/bare/unsupported before this point): only
the literal kind `unsupported` is rejected; any other kind is passed to
`JobData`. -/
def runGenerate (batchSystem : String) (c : Config) : Except String String :=
  if batchSystem = BatchUnsupported then Except.error "unsupported platform"
  else
    match jobData c batchSystem with
    | Except.error e => Except.error ("getting job data: " ++ e)
    | Except.ok s => Except.ok s

/-! ## The begin.go variant (src/begin.go lines 42-111) -/

/-- `Config` of src/begin.go (lines 42-59). -/
structure ConfigB where
  Name : String
  NumberOfNodes : Int
  NodeType : String
  NumberOfMPIRanksPerNode : Int
  NumberOfOMPThreadsPerProcess : Int
  Walltime : Int
  Email : String
  LogDirectory : String
  LoadModules : List String
  WorkingDirectory : String
  PreScript : List String
  EntryPoint : String
  PostScript : List String

/-- `Config.PBS` of src/begin.go (lines 61-111): header, module loads,
pre-script, conditional `cd`, then an *unconditional* `time mpirun ...`
invocation (carrying the total rank count) and the post-script. -/
def ConfigB.PBS (config : ConfigB) : String :=
  let NumberOfMPIRanks :=
    wrapI64 (config.NumberOfNodes * config.NumberOfMPIRanksPerNode)
  let OutputFile := pathJoin [config.LogDirectory, config.Name ++ ".out"]
  let ErrorFile := pathJoin [config.LogDirectory, config.Name ++ ".err"]
  "#!/bin/bash -l\n" ++
  "#PBS -N " ++ config.Name ++ "\n" ++
  "#PBS -e " ++ ErrorFile ++ "\n" ++
  "#PBS -o " ++ OutputFile ++ "\n" ++
  "#PBS -m abe\n" ++
  "#PBS -M " ++ config.Email ++ "\n" ++
  "#PBS -l select=" ++ toString config.NumberOfNodes ++
    ":node_type=" ++ config.NodeType ++
    ":mpiprocs=" ++ toString config.NumberOfMPIRanksPerNode ++
    ":ompthreads=" ++ toString config.NumberOfOMPThreadsPerProcess ++ "\n" ++
  "#PBS -l walltime=" ++ formatDuration config.Walltime ++ "\n" ++
  "\n" ++
  String.join (config.LoadModules.map (fun m => "module load " ++ m ++ "\n")) ++ "\n" ++
  String.join (config.PreScript.map (fun cmd => cmd ++ "\n")) ++ "\n" ++
  (if config.WorkingDirectory = "" then ""
   else "cd " ++ config.WorkingDirectory ++ "\n") ++ "\n" ++
  "time mpirun -x OMP_DISPLAY_ENV=TRUE -x OMP_NUM_THREADS=" ++
    toString config.NumberOfOMPThreadsPerProcess ++
    " -x OMP_PLACES=cores -n " ++ toString NumberOfMPIRanks ++
    " --map-by node:PE=" ++ toString config.NumberOfOMPThreadsPerProcess ++
    " --bind-to core " ++ config.EntryPoint ++ "\n" ++
  "\n" ++
  String.join (config.PostScript.map (fun cmd => cmd ++ "\n"))

/-! ## The third variant of part_001 (src/unnamed/part_001 lines 491-598) -/

/-- `Config` of the third program in src/unnamed/part_001 (lines 515-529).
It declares `WorkingDirectory`, but its `PBS` method never reads it. -/
structure ConfigV3 where
  Name : String
  NumberOfNodes : Int
  NodeType : String
  NumberOfMPIRanksPerNode : Int
  NumberOfOMPThreadsPerProcess : Int
  Walltime : Int
  Email : String
  LogDirectory : String
  LoadModules : List String
  WorkingDirectory : String
  EntryPoint : String

/-- `Config.PBS` of the third program in src/unnamed/part_001
(lines 531-564): note `mpiprocs=` carries `NumberOfMPIRanks`, the *total*
rank count, and no `cd` line is ever written. -/
def ConfigV3.PBS (config : ConfigV3) : String :=
  let NumberOfMPIRanks :=
    wrapI64 (config.NumberOfNodes * config.NumberOfMPIRanksPerNode)
  let OutputFile := pathJoin [config.LogDirectory, config.Name ++ ".out"]
  let ErrorFile := pathJoin [config.LogDirectory, config.Name ++ ".err"]
  "#!/bin/bash -l\n" ++
  "#PBS -N " ++ config.Name ++ "\n" ++
  "#PBS -e " ++ ErrorFile ++ "\n" ++
  "#PBS -o " ++ OutputFile ++ "\n" ++
  "#PBS -m abe\n" ++
  "#PBS -M " ++ config.Email ++ "\n" ++
  "#PBS -l select=" ++ toString config.NumberOfNodes ++
    ":node_type=" ++ config.NodeType ++
    ":mpiprocs=" ++ toString NumberOfMPIRanks ++
    ":ompthreads=" ++ toString config.NumberOfOMPThreadsPerProcess ++ "\n" ++
  "#PBS -l walltime=" ++ formatDuration config.Walltime ++ "\n" ++
  String.join (config.LoadModules.map (fun m => "module load " ++ m ++ "\n")) ++
  "time mpirun -x OMP_DISPLAY_ENV=TRUE -x OMP_NUM_THREADS=" ++
    toString config.NumberOfOMPThreadsPerProcess ++
    " -x OMP_PLACES=cores -n " ++ toString NumberOfMPIRanks ++
    " --map-by l3cache --bind-to l3cache " ++ config.EntryPoint

/-! ## Substring search (used to state concrete counterexamples) -/

/-- Is `pat` a contiguous sub-list of the given character list? -/
def hasInfixChars (pat : List Char) : List Char → Bool
  | [] => List.isPrefixOf pat []
  | c :: rest => List.isPrefixOf pat (c :: rest) || hasInfixChars pat rest

/-- Does string `s` contain `pat` as a contiguous substring? -/
def strContains (s pat : String) : Bool :=
  hasInfixChars pat.data s.data

/-! ## Spec-side definitions (for the refinement claims about formatting) -/

/-- The nearest whole number of seconds for a non-negative duration given in
nanoseconds, following the spec's words: round to the nearest whole second
(ties rounding up, i.e. away from zero for non-negative input). -/
def nearestSecond (d : Int) : Int :=
  (d + 500000000) / 1000000000

/-- The spec's formatting contract, following its words: decompose a whole
number of seconds into hours, minutes and seconds with hours unbounded (not
wrapped at 24) and format as zero-padded HH:MM:SS. -/
def specHMS (n : Int) : String :=
  pad2 (n / 3600) ++ ":" ++ pad2 (n % 3600 / 60) ++ ":" ++ pad2 (n % 60)

/-! ## Concrete configurations used by witnesses and counterexamples -/

/-- The all-empty configuration (which is also Go's zero value of `Config`,
what decoding an empty TOML document produces). -/
def cfgZero : Config :=
  { Name := "", NumberOfNodes := 0, NodeType := "",
    NumberOfMPIRanksPerNode := 0, NumberOfOMPThreadsPerProcess := 0,
    Walltime := 0, Email := "", LogDirectory := "",
    PrintOMPEnvironment := false, ModulesPreScript := [], LoadModules := [],
    WorkingDirectory := "", PreScript := [], RunTime := [],
    Executable := "", Arguments := [], PostScript := [] }

/-- The spec's end-to-end example JobSpec. -/
def cfgRun1 : Config :=
  { cfgZero with
    Name := "run1", NumberOfNodes := 2, NodeType := "rome",
    NumberOfMPIRanksPerNode := 4, NumberOfOMPThreadsPerProcess := 2,
    Walltime := 3661000000000, Email := "user@example.com",
    LogDirectory := "logs", Executable := "./sim", Arguments := ["--fast"] }

/-- The example JobSpec with a working directory set. -/
def cfgWd : Config :=
  { cfgRun1 with WorkingDirectory := "/scratch/job" }

/-- A minimal configuration whose only non-zero field is the executable. -/
def cfgExeOnly : Config :=
  { cfgZero with Executable := "x" }

/-- A configuration whose node count and per-node rank count are both 2^32,
so that their int64 product overflows (it wraps to 0). -/
def cfgOverflow : Config :=
  { cfgZero with
    NumberOfNodes := 4294967296, NumberOfMPIRanksPerNode := 4294967296 }

/-- The example JobSpec for the begin.go variant, with
`NumberOfMPIRanksPerNode = 0` (a non-MPI job). -/
def cfgB0 : ConfigB :=
  { Name := "a", NumberOfNodes := 1, NodeType := "",
    NumberOfMPIRanksPerNode := 0, NumberOfOMPThreadsPerProcess := 1,
    Walltime := 0, Email := "", LogDirectory := "",
    LoadModules := [], WorkingDirectory := "", PreScript := [],
    EntryPoint := "./sim", PostScript := [] }

/-- The spec's end-to-end example JobSpec for the part_001 third variant,
with a non-empty working directory. -/
def cfgV3 : ConfigV3 :=
  { Name := "run1", NumberOfNodes := 2, NodeType := "rome",
    NumberOfMPIRanksPerNode := 4, NumberOfOMPThreadsPerProcess := 2,
    Walltime := 3661000000000, Email := "user@example.com",
    LogDirectory := "logs", LoadModules := [],
    WorkingDirectory := "/tmp", EntryPoint := "./sim" }

/-- Equality of rendering results is decidable (needed to evaluate the
generator on concrete configurations). -/
instance : DecidableEq (Except String String)
  | Except.error a, Except.error b =>
    if h : a = b then Decidable.isTrue (by rw [h])
    else Decidable.isFalse (by intro he; cases he; exact h rfl)
  | Except.error a, Except.ok b => Decidable.isFalse (by intro h; cases h)
  | Except.ok a, Except.error b => Decidable.isFalse (by intro h; cases h)
  | Except.ok a, Except.ok b =>
    if h : a = b then Decidable.isTrue (by rw [h])
    else Decidable.isFalse (by intro he; cases he; exact h rfl)

/-! ## Projections of the derived configuration -/

lemma extended_ranks (c : Config) :
    (NewExtendedConfig c).NumberOfMPIRanks =
      wrapI64 (c.NumberOfNodes * c.NumberOfMPIRanksPerNode) := by
  unfold NewExtendedConfig
  split <;> rfl

lemma wrapI64_of_bounded (n : Int) (h0 : -9223372036854775808 ≤ n)
    (h1 : n ≤ 9223372036854775807) : wrapI64 n = n := by
  unfold wrapI64
  omega

lemma extended_tasks (c : Config) :
    (NewExtendedConfig c).NumberOfTasksPerNode = 1 := by
  unfold NewExtendedConfig
  split <;> rfl

lemma extended_Name (c : Config) : (NewExtendedConfig c).Name = c.Name := by
  unfold NewExtendedConfig
  split <;> rfl

lemma extended_Email (c : Config) : (NewExtendedConfig c).Email = c.Email := by
  unfold NewExtendedConfig
  split <;> rfl

lemma extended_NodeType (c : Config) :
    (NewExtendedConfig c).NodeType = c.NodeType := by
  unfold NewExtendedConfig
  split <;> rfl

lemma extended_Nodes (c : Config) :
    (NewExtendedConfig c).NumberOfNodes = c.NumberOfNodes := by
  unfold NewExtendedConfig
  split <;> rfl

lemma extended_RanksPerNode (c : Config) :
    (NewExtendedConfig c).NumberOfMPIRanksPerNode =
      c.NumberOfMPIRanksPerNode := by
  unfold NewExtendedConfig
  split <;> rfl

lemma extended_Threads (c : Config) :
    (NewExtendedConfig c).NumberOfOMPThreadsPerProcess =
      c.NumberOfOMPThreadsPerProcess := by
  unfold NewExtendedConfig
  split <;> rfl

lemma extended_WalltimeString (c : Config) :
    (NewExtendedConfig c).WalltimeString = formatDuration c.Walltime := by
  unfold NewExtendedConfig
  split <;> rfl

lemma extended_OutputFile (c : Config) :
    (NewExtendedConfig c).OutputFile =
      pathJoin [c.LogDirectory, c.Name ++ ".out"] := by
  unfold NewExtendedConfig
  split <;> rfl

lemma extended_ErrorFile (c : Config) :
    (NewExtendedConfig c).ErrorFile =
      pathJoin [c.LogDirectory, c.Name ++ ".err"] := by
  unfold NewExtendedConfig
  split <;> rfl

/-! ## Structure of the generated script -/

lemma jobData_eq (c : Config) (k : String)
    (h : hasDelim (taskString c).data = false) :
    jobData c k = Except.ok (headerBlock c k ++ preBlock c ++ cdBlock c ++
      taskString c ++ "\n" ++ postBlock c) := by
  unfold jobData execTemplateUser
  simp [h]

lemma strJoin_cons_of_ne (x : String) (l : List String) (h : l ≠ []) :
    strJoin " " (x :: l) = x ++ " " ++ strJoin " " l := by
  cases l with
  | nil => exact absurd rfl h
  | cons y ys => rfl

lemma restPieces_ne_nil (c : Config) : restPieces c ≠ [] := by
  intro h
  simp [restPieces] at h

lemma mpirunTaskSeg_eq (c : Config) :
    mpirunTaskSeg c =
      "time mpirun -n " ++
        toString (NewExtendedConfig c).NumberOfMPIRanks := rfl

lemma taskString_pos (c : Config) (hr : 0 < c.NumberOfMPIRanksPerNode) :
    taskString c = mpirunTaskSeg c ++ " " ++ strJoin " " (restPieces c) := by
  unfold taskString taskPieces
  rw [if_pos hr, List.singleton_append]
  exact strJoin_cons_of_ne _ _ (restPieces_ne_nil c)

lemma taskString_zero (c : Config) (hr : c.NumberOfMPIRanksPerNode = 0) :
    taskString c = strJoin " " (restPieces c) := by
  unfold taskString taskPieces
  rw [if_neg (by omega), List.nil_append]

/-! ## The generator never reads `PrintOMPEnvironment` -/

lemma taskString_flag (c : Config) (b : Bool) :
    taskString { c with PrintOMPEnvironment := b } = taskString c := by
  cases c
  simp only [taskString, taskPieces, restPieces, mpirunTaskSeg, extended_ranks]

lemma headerBlock_flag (c : Config) (b : Bool) (k : String) :
    headerBlock { c with PrintOMPEnvironment := b } k = headerBlock c k := by
  cases c
  simp only [headerBlock, pbsHeaderString, slurmHeaderString, bareHeaderString,
    extended_Name, extended_Email, extended_NodeType, extended_Nodes,
    extended_RanksPerNode, extended_Threads, extended_WalltimeString,
    extended_OutputFile, extended_ErrorFile, extended_tasks]

lemma preBlock_flag (c : Config) (b : Bool) :
    preBlock { c with PrintOMPEnvironment := b } = preBlock c := by
  cases c
  rfl

lemma cdBlock_flag (c : Config) (b : Bool) :
    cdBlock { c with PrintOMPEnvironment := b } = cdBlock c := by
  cases c
  rfl

lemma postBlock_flag (c : Config) (b : Bool) :
    postBlock { c with PrintOMPEnvironment := b } = postBlock c := by
  cases c
  rfl

/-! ## Arithmetic of the duration formatter -/

lemma pad2_nat_len : ∀ v : Nat, v < 60 → (pad2 (v : Int)).length = 2 := by
  decide

lemma pad2_len_two (k : Int) (h0 : 0 ≤ k) (h1 : k < 60) :
    (pad2 k).length = 2 := by
  have hk : k = ((k.toNat : Nat) : Int) := by omega
  rw [hk]
  exact pad2_nat_len k.toNat (by omega)

lemma formatCore_mul (n : Int) (hn : 0 ≤ n) :
    formatCore (1000000000 * n) = specHMS n := by
  simp only [formatCore, specHMS]
  have e1 : (1000000000 * n).tdiv 3600000000000 = n / 3600 := by
    rw [Int.tdiv_eq_ediv (by omega) (by norm_num)]
    omega
  rw [e1]
  have e2 : (1000000000 * n - n / 3600 * 3600000000000).tdiv 60000000000 =
      n % 3600 / 60 := by
    rw [Int.tdiv_eq_ediv (by omega) (by norm_num)]
    omega
  rw [e2]
  have e3 : (1000000000 * n - n / 3600 * 3600000000000 -
      n % 3600 / 60 * 60000000000).tdiv 1000000000 = n % 60 := by
    rw [Int.tdiv_eq_ediv (by omega) (by norm_num)]
    omega
  rw [e3]

lemma goRoundSecond_of_nonneg (d : Int) (h0 : 0 ≤ d)
    (h1 : d ≤ 9223372036354775807) :
    goRoundSecond d = 1000000000 * nearestSecond d := by
  have hm : Int.tmod d 1000000000 = d % 1000000000 :=
    Int.tmod_eq_emod h0 (by norm_num)
  simp only [goRoundSecond, nearestSecond, hm]
  rw [if_neg (by omega)]
  by_cases hr : d % 1000000000 + d % 1000000000 < 1000000000
  · rw [if_pos hr]
    omega
  · rw [if_neg hr, if_pos (by omega)]
    omega

lemma tdiv_nonpos_eq (a b : Int) (ha : a ≤ 0) (hb : 0 ≤ b) :
    a.tdiv b = -((-a) / b) := by
  have h : ((-(-a)).tdiv b) = -((-a).tdiv b) := Int.neg_tdiv (-a) b
  rw [neg_neg] at h
  rw [h, Int.tdiv_eq_ediv (by omega) hb]

lemma pad2_neg_mem (k : Int) (hk : k < 0) : '-' ∈ (pad2 k).data := by
  unfold pad2
  rw [if_pos hk, String.data_append]
  exact List.mem_append_left _ (by decide)

lemma formatCore_neg_decomp (D : Int) (hD : 0 ≤ D) :
    formatCore (-D) =
      pad2 (-(D / 3600000000000)) ++ ":" ++
      pad2 (-(D % 3600000000000 / 60000000000)) ++ ":" ++
      pad2 (-(D % 3600000000000 % 60000000000 / 1000000000)) := by
  simp only [formatCore]
  have e1 : (-D).tdiv 3600000000000 = -(D / 3600000000000) := by
    rw [tdiv_nonpos_eq _ _ (by omega) (by norm_num), neg_neg]
  rw [e1]
  have e2 : -D - -(D / 3600000000000) * 3600000000000 =
      -(D % 3600000000000) := by
    omega
  rw [e2]
  have e3 : (-(D % 3600000000000)).tdiv 60000000000 =
      -(D % 3600000000000 / 60000000000) := by
    rw [tdiv_nonpos_eq _ _ (by omega) (by norm_num), neg_neg]
  rw [e3]
  have e4 : -(D % 3600000000000) -
      -(D % 3600000000000 / 60000000000) * 60000000000 =
      -(D % 3600000000000 % 60000000000) := by
    omega
  rw [e4]
  have e5 : (-(D % 3600000000000 % 60000000000)).tdiv 1000000000 =
      -(D % 3600000000000 % 60000000000 / 1000000000) := by
    rw [tdiv_nonpos_eq _ _ (by omega) (by norm_num), neg_neg]
  rw [e5]

lemma formatCore_neg_contains (R : Int) (hR : R ≤ -1000000000) :
    '-' ∈ (formatCore R).data := by
  have hform : formatCore R = formatCore (-(-R)) := by rw [neg_neg]
  rw [hform, formatCore_neg_decomp (-R) (by omega)]
  have key : 0 < (-R) / 3600000000000 ∨
      0 < (-R) % 3600000000000 / 60000000000 ∨
      0 < (-R) % 3600000000000 % 60000000000 / 1000000000 := by omega
  rcases key with hx | hx | hx
  · have hmem := pad2_neg_mem (-((-R) / 3600000000000)) (by omega)
    simp only [String.data_append, List.mem_append]
    tauto
  · have hmem := pad2_neg_mem (-((-R) % 3600000000000 / 60000000000)) (by omega)
    simp only [String.data_append, List.mem_append]
    tauto
  · have hmem := pad2_neg_mem
      (-((-R) % 3600000000000 % 60000000000 / 1000000000)) (by omega)
    simp only [String.data_append, List.mem_append]
    tauto

lemma goRoundSecond_neg_eq (d : Int) (hd : d < 0) :
    goRoundSecond d =
      if (-d) % 1000000000 + (-d) % 1000000000 < 1000000000
      then -(1000000000 * ((-d) / 1000000000))
      else if -9223372036854775808 ≤ -(1000000000 * ((-d) / 1000000000 + 1))
        then -(1000000000 * ((-d) / 1000000000 + 1))
        else -9223372036854775808 := by
  have h2 : d.tdiv 1000000000 = -((-d) / 1000000000) :=
    tdiv_nonpos_eq d _ (by omega) (by norm_num)
  have h1 := Int.tmod_add_tdiv d 1000000000
  rw [h2] at h1
  have hm : Int.tmod d 1000000000 = -((-d) % 1000000000) := by omega
  simp only [goRoundSecond, hm, neg_neg]
  rw [if_pos hd]
  have hA : d + (-d) % 1000000000 = -(1000000000 * ((-d) / 1000000000)) := by
    omega
  have hB : d - 1000000000 + (-d) % 1000000000 =
      -(1000000000 * ((-d) / 1000000000 + 1)) := by
    omega
  rw [hA, hB]

lemma goRoundSecond_neg_cases (d : Int) (hd : d < 0) :
    goRoundSecond d = 0 ∨ goRoundSecond d ≤ -1000000000 := by
  rw [goRoundSecond_neg_eq d hd]
  split
  · omega
  · split
    · omega
    · omega

/-! ## Claim theorems -/

/-- C1 (amended): the derived total rank count is the int64-wrapped product
of the node count and the per-node rank count; whenever the mathematical
product fits in int64 — in particular in the zero case — it equals
`nodeCount * ranksPerNode`, and it is zero whenever either factor is zero.
(At inputs whose product overflows int64 the program derives the wrapped
value instead; see the counterexample.) -/
theorem totalRanks_eq_product (c : Config)
    (h0 : -9223372036854775808 ≤ c.NumberOfNodes * c.NumberOfMPIRanksPerNode)
    (h1 : c.NumberOfNodes * c.NumberOfMPIRanksPerNode ≤ 9223372036854775807) :
    (NewExtendedConfig c).NumberOfMPIRanks =
      c.NumberOfNodes * c.NumberOfMPIRanksPerNode ∧
    (c.NumberOfNodes = 0 ∨ c.NumberOfMPIRanksPerNode = 0 →
      (NewExtendedConfig c).NumberOfMPIRanks = 0) := by
  have he : (NewExtendedConfig c).NumberOfMPIRanks =
      c.NumberOfNodes * c.NumberOfMPIRanksPerNode :=
    (extended_ranks c).trans (wrapI64_of_bounded _ h0 h1)
  refine ⟨he, ?_⟩
  intro h
  rw [he]
  rcases h with h | h <;> rw [h] <;> ring

/-- C1 witness: the zero configuration derives total rank count zero, and
the spec's 2-nodes-by-4-ranks example derives the exact product 8. -/
theorem totalRanks_eq_product_witness :
    (-9223372036854775808 ≤
      cfgZero.NumberOfNodes * cfgZero.NumberOfMPIRanksPerNode) ∧
    (cfgZero.NumberOfNodes * cfgZero.NumberOfMPIRanksPerNode ≤
      9223372036854775807) ∧
    (cfgZero.NumberOfNodes = 0 ∨ cfgZero.NumberOfMPIRanksPerNode = 0) ∧
    (NewExtendedConfig cfgZero).NumberOfMPIRanks = 0 ∧
    (NewExtendedConfig cfgRun1).NumberOfMPIRanks =
      cfgRun1.NumberOfNodes * cfgRun1.NumberOfMPIRanksPerNode :=
  ⟨by decide, by decide, Or.inl (by decide),
    (totalRanks_eq_product cfgZero (by decide) (by decide)).2
      (Or.inl (by decide)),
    (totalRanks_eq_product cfgRun1 (by decide) (by decide)).1⟩

/-- C1 counterexample: with nodeCount = ranksPerNode = 2^32 the int64 product
wraps to 0, while the mathematical product is 2^64, refuting the unrestricted
product identity for the code. -/
theorem totalRanks_overflow_cex :
    (NewExtendedConfig cfgOverflow).NumberOfMPIRanks = 0 ∧
    cfgOverflow.NumberOfNodes * cfgOverflow.NumberOfMPIRanksPerNode =
      18446744073709551616 ∧
    (NewExtendedConfig cfgOverflow).NumberOfMPIRanks ≠
      cfgOverflow.NumberOfNodes * cfgOverflow.NumberOfMPIRanksPerNode := by
  refine ⟨by decide, by decide, by decide⟩

/-- C2 (amended): for every non-negative duration whose nearest-second
rounding stays within the int64 range, `formatDuration` rounds to the nearest
whole second, decomposes it into hours/minutes/seconds with hours unbounded,
and renders the zero-padded HH:MM:SS form in which the minute and second
fields have exactly two digits. -/
theorem formatDuration_meets_spec (d : Int) (h0 : 0 ≤ d)
    (h1 : d ≤ 9223372036354775807) :
    formatDuration d = specHMS (nearestSecond d) ∧
    (pad2 (nearestSecond d % 3600 / 60)).length = 2 ∧
    (pad2 (nearestSecond d % 60)).length = 2 := by
  have hn : 0 ≤ nearestSecond d := by unfold nearestSecond; omega
  refine ⟨?_, ?_, ?_⟩
  · unfold formatDuration
    rw [goRoundSecond_of_nonneg d h0 h1]
    exact formatCore_mul _ hn
  · exact pad2_len_two _ (by omega) (by omega)
  · exact pad2_len_two _ (by omega) (by omega)

/-- C2 witness: the spec's two examples, 3661 s and 90000 s. -/
theorem formatDuration_meets_spec_witness :
    (0 : Int) ≤ 3661000000000 ∧
    (3661000000000 : Int) ≤ 9223372036354775807 ∧
    formatDuration 3661000000000 = "01:01:01" ∧
    formatDuration 90000000000000 = "25:00:00" := by
  refine ⟨by norm_num, by norm_num, ?_, ?_⟩
  · exact (formatDuration_meets_spec 3661000000000 (by norm_num)
      (by norm_num)).1.trans (by decide)
  · exact (formatDuration_meets_spec 90000000000000 (by norm_num)
      (by norm_num)).1.trans (by decide)

/-- C2 counterexample: at the maximum int64 duration the rounding overflow
clamp makes the output differ from the nearest-second rendering, so the claim
fails for *every* non-negative duration: the code truncates the final second
instead of rounding it up. -/
theorem formatDuration_overflow_clamp_cex :
    (0 : Int) ≤ 9223372036854775807 ∧
    formatDuration 9223372036854775807 = "2562047:47:16" ∧
    specHMS (nearestSecond 9223372036854775807) = "2562047:47:17" ∧
    formatDuration 9223372036854775807 ≠
      specHMS (nearestSecond 9223372036854775807) := by
  refine ⟨by norm_num, by decide, by decide, by decide⟩

/-- C3 (amended): in the part_000 generator the task line carries the
`time mpirun -n <total>` launcher segment exactly when
`NumberOfMPIRanksPerNode > 0`, and omits it when the per-node rank count is
zero.  (The begin.go and part_002 variants emit the launcher
unconditionally; see the counterexample.) -/
theorem jobData_mpirun_gated (c : Config) (k : String)
    (h : hasDelim (taskString c).data = false) :
    (0 < c.NumberOfMPIRanksPerNode →
      jobData c k = Except.ok (headerBlock c k ++ preBlock c ++ cdBlock c ++
        ("time mpirun -n " ++
          toString (NewExtendedConfig c).NumberOfMPIRanks ++
          " " ++ strJoin " " (restPieces c)) ++ "\n" ++ postBlock c)) ∧
    (c.NumberOfMPIRanksPerNode = 0 →
      jobData c k = Except.ok (headerBlock c k ++ preBlock c ++ cdBlock c ++
        strJoin " " (restPieces c) ++ "\n" ++ postBlock c)) := by
  constructor
  · intro hr
    rw [jobData_eq c k h, taskString_pos c hr, mpirunTaskSeg_eq]
  · intro hr
    rw [jobData_eq c k h, taskString_zero c hr]

/-- C3 witness: the spec's example JobSpec (4 ranks per node) rendered bare. -/
theorem jobData_mpirun_gated_witness :
    hasDelim (taskString cfgRun1).data = false ∧
    0 < cfgRun1.NumberOfMPIRanksPerNode ∧
    jobData cfgRun1 BatchBare = Except.ok (headerBlock cfgRun1 BatchBare ++
      preBlock cfgRun1 ++ cdBlock cfgRun1 ++
      ("time mpirun -n " ++
        toString (NewExtendedConfig cfgRun1).NumberOfMPIRanks ++
        " " ++ strJoin " " (restPieces cfgRun1)) ++ "\n" ++
      postBlock cfgRun1) :=
  ⟨by decide, by decide,
    (jobData_mpirun_gated cfgRun1 BatchBare (by decide)).1 (by decide)⟩

/-- C3 counterexample: the begin.go renderer emits the mpirun launcher even
when `NumberOfMPIRanksPerNode = 0` (with `-n 0`), refuting the claimed
equivalence for that cited renderer. -/
theorem beginPBS_mpirun_unconditional_cex :
    cfgB0.NumberOfMPIRanksPerNode = 0 ∧
    strContains (ConfigB.PBS cfgB0) "time mpirun" = true ∧
    strContains (ConfigB.PBS cfgB0) " -n 0 " = true := by
  refine ⟨by decide, by decide, by decide⟩

/-- C4 (amended): after autodetection only `unsupported` is rejected — it
yields the reported error and no output; any *other* kind outside
pbs/slurm/bare (possible only by explicit request) is not rejected and
produces a headerless script body. -/
theorem runGenerate_unsupported_and_unknown (c : Config) (k : String) :
    runGenerate BatchUnsupported c = Except.error "unsupported platform" ∧
    (k ≠ BatchPBS → k ≠ BatchSlurm → k ≠ BatchBare → k ≠ BatchUnsupported →
      hasDelim (taskString c).data = false →
      runGenerate k c = Except.ok (preBlock c ++ cdBlock c ++
        taskString c ++ "\n" ++ postBlock c)) := by
  constructor
  · unfold runGenerate
    rw [if_pos rfl]
  · intro h1 h2 h3 h4 h5
    unfold runGenerate
    rw [if_neg h4, jobData_eq c k h5]
    unfold headerBlock
    rw [if_neg h1, if_neg h2, if_neg h3]
    rfl

/-- C4 witness: requesting the kind `foo` produces a headerless script body
with no error. -/
theorem runGenerate_unsupported_and_unknown_witness :
    ("foo" ≠ BatchPBS) ∧ ("foo" ≠ BatchSlurm) ∧ ("foo" ≠ BatchBare) ∧
    ("foo" ≠ BatchUnsupported) ∧
    hasDelim (taskString cfgRun1).data = false ∧
    runGenerate "foo" cfgRun1 = Except.ok (preBlock cfgRun1 ++
      cdBlock cfgRun1 ++ taskString cfgRun1 ++ "\n" ++ postBlock cfgRun1) :=
  ⟨by decide, by decide, by decide, by decide, by decide,
    (runGenerate_unsupported_and_unknown cfgRun1 "foo").2
      (by decide) (by decide) (by decide) (by decide) (by decide)⟩

/-- C4 counterexample: the kind `foo` is outside pbs/slurm/bare yet script
generation succeeds and returns non-empty output (the body without any
header), refuting the claimed reported-error-and-empty-output behavior. -/
theorem unknown_kind_produces_output_cex :
    runGenerate "foo" cfgExeOnly = Except.ok "\n\n\n\nx\n" ∧
    ("\n\n\n\nx\n" : String) ≠ "" := by
  refine ⟨by decide, by decide⟩

/-- C5 (amended): the part_000 PBS header contains the resource-selection
directive whose colon-joined sub-clauses carry, in order, the node count, the
node type, the *per-node* MPI rank count and the OMP thread count, followed by
the walltime directive.  (The older variant at part_001 lines 531-564 instead
emits the total rank count in `mpiprocs=`; see the counterexample.) -/
theorem pbsHeader_select_directive (c : Config) :
    ∃ pre, pbsHeaderString c =
      pre ++ ("#PBS -l select=" ++ toString c.NumberOfNodes ++
        ":node_type=" ++ c.NodeType ++
        ":mpiprocs=" ++ toString c.NumberOfMPIRanksPerNode ++
        ":ompthreads=" ++ toString c.NumberOfOMPThreadsPerProcess ++ "\n") ++
      ("#PBS -l walltime=" ++ formatDuration c.Walltime ++ "\n") := by
  refine ⟨"#!/bin/bash -l\n" ++ "#PBS -N " ++ c.Name ++ "\n" ++
    "#PBS -e " ++ pathJoin [c.LogDirectory, c.Name ++ ".err"] ++ "\n" ++
    "#PBS -o " ++ pathJoin [c.LogDirectory, c.Name ++ ".out"] ++ "\n" ++
    "#PBS -m abe\n" ++ "#PBS -M " ++ c.Email ++ "\n", ?_⟩
  simp only [pbsHeaderString, extended_Name, extended_Email, extended_NodeType,
    extended_Nodes, extended_RanksPerNode, extended_Threads,
    extended_WalltimeString, extended_OutputFile, extended_ErrorFile]
  simp only [String.append_assoc]

/-- C5 counterexample: with 2 nodes and 4 ranks per node, the part_001
(lines 531-564) PBS header carries `mpiprocs=8` — the total rank count — and
not the per-node value 4 that the claim requires. -/
theorem pbsV3_mpiprocs_total_cex :
    cfgV3.NumberOfNodes = 2 ∧ cfgV3.NumberOfMPIRanksPerNode = 4 ∧
    strContains (ConfigV3.PBS cfgV3) ":mpiprocs=8:" = true ∧
    strContains (ConfigV3.PBS cfgV3) ":mpiprocs=4:" = false := by
  refine ⟨by decide, by decide, by decide, by decide⟩

/-- C6 (amended): the script generator performs no validation of
`Executable`: with an empty executable it still succeeds, and the task pieces
contain the empty string where the executable should be. -/
theorem empty_executable_renders (c : Config) (k : String)
    (hexe : c.Executable = "") (h : hasDelim (taskString c).data = false) :
    jobData c k = Except.ok (headerBlock c k ++ preBlock c ++ cdBlock c ++
      taskString c ++ "\n" ++ postBlock c) ∧
    restPieces c =
      (if 0 < c.RunTime.length then [strJoin " " c.RunTime] else []) ++
      [""] ++
      (if 0 < c.Arguments.length then [strJoin " " c.Arguments] else []) := by
  refine ⟨jobData_eq c k h, ?_⟩
  unfold restPieces
  rw [hexe]

/-- C6 witness: the zero configuration (empty executable) rendered for
Slurm. -/
theorem empty_executable_renders_witness :
    cfgZero.Executable = "" ∧
    hasDelim (taskString cfgZero).data = false ∧
    (jobData cfgZero BatchSlurm = Except.ok (headerBlock cfgZero BatchSlurm ++
      preBlock cfgZero ++ cdBlock cfgZero ++ taskString cfgZero ++ "\n" ++
      postBlock cfgZero) ∧
    restPieces cfgZero =
      (if 0 < cfgZero.RunTime.length then [strJoin " " cfgZero.RunTime]
       else []) ++
      [""] ++
      (if 0 < cfgZero.Arguments.length then [strJoin " " cfgZero.Arguments]
       else [])) :=
  ⟨by decide, by decide,
    empty_executable_renders cfgZero BatchSlurm (by decide) (by decide)⟩

/-- C6 counterexample: a configuration with an empty executable is not
rejected — generation succeeds and returns a script whose task line is
empty. -/
theorem empty_executable_accepted_cex :
    cfgZero.Executable = "" ∧
    jobData cfgZero BatchBare =
      Except.ok "#!/bin/bash -l\n\n\n\n\n\n\n" := by
  refine ⟨by decide, by decide⟩

/-- C7: the `PrintOMPEnvironment` flag is parsed into the configuration but
never read by the generator's own logic: for every configuration whose task
string is free of template directives (the domain on which this model is
exact), the rendered script is byte-identical for both flag values, so no
environment-dump directive is ever gated by it.  (A task string containing
its own `PrintOMPEnvironment` template action can echo the flag's value into
the output, but that is the user's substitution, not an emitted directive.) -/
theorem printOMPEnvironment_ignored (c : Config) (b : Bool) (k : String)
    (h : hasDelim (taskString c).data = false) :
    jobData { c with PrintOMPEnvironment := b } k = jobData c k := by
  have h2 : hasDelim
      (taskString { c with PrintOMPEnvironment := b }).data = false := by
    rw [taskString_flag]
    exact h
  rw [jobData_eq _ k h2, jobData_eq c k h, headerBlock_flag, preBlock_flag,
    cdBlock_flag, taskString_flag, postBlock_flag]

/-- C7 witness: the example JobSpec renders identically with the flag on and
off. -/
theorem printOMPEnvironment_ignored_witness :
    hasDelim (taskString cfgRun1).data = false ∧
    jobData { cfgRun1 with PrintOMPEnvironment := true } BatchBare =
      jobData cfgRun1 BatchBare :=
  ⟨by decide,
    printOMPEnvironment_ignored cfgRun1 true BatchBare (by decide)⟩

/-- C8: the derived tasks-per-node value is always 1, whatever the per-node
rank count is, and the Slurm header always carries the directive
`--ntasks-per-node 1`. -/
theorem tasksPerNode_always_one (c : Config) :
    (NewExtendedConfig c).NumberOfTasksPerNode = 1 ∧
    ∃ pre post, slurmHeaderString c =
      pre ++ "#SBATCH --ntasks-per-node 1\n" ++ post := by
  refine ⟨extended_tasks c,
    "#!/bin/bash -l\n" ++ "#SBATCH -J " ++ c.Name ++ "\n" ++
      "#SBATCH -o " ++ pathJoin [c.LogDirectory, c.Name ++ ".out"] ++ "\n" ++
      "#SBATCH -e " ++ pathJoin [c.LogDirectory, c.Name ++ ".err"] ++ "\n" ++
      "#SBATCH --mail-type=ALL\n" ++
      "#SBATCH --mail-user=" ++ c.Email ++ "\n" ++
      "#SBATCH --nodes " ++ toString c.NumberOfNodes ++ "\n",
    "#SBATCH --time=" ++ formatDuration c.Walltime ++ "\n", ?_⟩
  have h1 : ("#SBATCH --ntasks-per-node 1\n" : String) =
      "#SBATCH --ntasks-per-node " ++ toString (1 : Int) ++ "\n" := rfl
  rw [h1]
  simp only [slurmHeaderString, extended_tasks, extended_Name, extended_Email,
    extended_Nodes, extended_WalltimeString, extended_OutputFile,
    extended_ErrorFile]
  simp only [String.append_assoc]

/-- C9 (amended): in the part_000 generator an empty working directory
inserts no `cd` text at all, and a non-empty one inserts exactly the single
line `cd <workingDirectory>` at the fixed position between the pre-script
block and the task line.  (The part_001 lines 531-564 variant never emits a
`cd` line; see the counterexample.) -/
theorem jobData_cd_line (c : Config) (k : String)
    (h : hasDelim (taskString c).data = false) :
    (c.WorkingDirectory = "" →
      jobData c k = Except.ok (headerBlock c k ++ preBlock c ++ "\n" ++
        taskString c ++ "\n" ++ postBlock c)) ∧
    (c.WorkingDirectory ≠ "" →
      jobData c k = Except.ok (headerBlock c k ++ preBlock c ++
        ("cd " ++ c.WorkingDirectory ++ "\n" ++ "\n") ++
        taskString c ++ "\n" ++ postBlock c)) := by
  constructor
  · intro hw
    rw [jobData_eq c k h]
    unfold cdBlock
    rw [if_pos hw]
    rfl
  · intro hw
    rw [jobData_eq c k h]
    unfold cdBlock
    rw [if_neg hw]

/-- C9 witness: the example JobSpec with working directory `/scratch/job`
gets exactly the one cd line. -/
theorem jobData_cd_line_witness :
    hasDelim (taskString cfgWd).data = false ∧
    cfgWd.WorkingDirectory ≠ "" ∧
    jobData cfgWd BatchBare = Except.ok (headerBlock cfgWd BatchBare ++
      preBlock cfgWd ++ ("cd " ++ cfgWd.WorkingDirectory ++ "\n" ++ "\n") ++
      taskString cfgWd ++ "\n" ++ postBlock cfgWd) :=
  ⟨by decide, by decide,
    (jobData_cd_line cfgWd BatchBare (by decide)).2 (by decide)⟩

/-- C9 counterexample: the part_001 (lines 531-564) renderer produces no
`cd` line even though the working directory is non-empty. -/
theorem pbsV3_no_cd_line_cex :
    cfgV3.WorkingDirectory ≠ "" ∧
    strContains (ConfigV3.PBS cfgV3) "cd " = false := by
  refine ⟨by decide, by decide⟩

/-- C10 (amended): the duration formatter is total on negative inputs and
returns a string, but the shape depends on the rounded value: a negative
input that rounds to zero seconds formats as the ordinary `00:00:00`, while
an input whose rounded value is at least one second below zero yields
minus-signed components (the output contains a minus character, so it cannot
match the all-digit zero-padded HH:MM:SS shape). -/
theorem formatDuration_negative_behavior (d : Int) (hd : d < 0) :
    (goRoundSecond d = 0 → formatDuration d = "00:00:00") ∧
    (goRoundSecond d ≠ 0 → '-' ∈ (formatDuration d).data) := by
  constructor
  · intro h
    unfold formatDuration
    rw [h]
    decide
  · intro h
    have hle : goRoundSecond d ≤ -1000000000 := by
      rcases goRoundSecond_neg_cases d hd with h0 | h0
      · exact absurd h0 h
      · exact h0
    unfold formatDuration
    exact formatCore_neg_contains _ hle

/-- C10 witness: -1.5 s rounds away from zero and formats with a minus
sign. -/
theorem formatDuration_negative_behavior_witness :
    (-1500000000 : Int) < 0 ∧ goRoundSecond (-1500000000) ≠ 0 ∧
    '-' ∈ (formatDuration (-1500000000)).data :=
  ⟨by norm_num, by decide,
    (formatDuration_negative_behavior (-1500000000) (by norm_num)).2
      (by decide)⟩

/-- C10 counterexample: the negative input -0.4 s rounds to zero and formats
as `00:00:00` — no minus-signed component appears, and the output does match
the zero-padded HH:MM:SS shape, refuting the claim for every negative
input. -/
theorem negative_duration_wellformed_cex :
    (-400000000 : Int) < 0 ∧ formatDuration (-400000000) = "00:00:00" :=
  ⟨by norm_num, by decide⟩
